import Mathlib

/-!
Shallow embedding of the zm-device actor (src/zm_device.c) and proofs about
its mailbox protocol handler, control-command handler, configuration
handling and stop/teardown behaviour.

The core under verification is src/zm_device.c.  The Device Registry
(zm_devices), the Protocol Codec (zm_proto) and the Broker Client Handle
(mlm_client) are external collaborators whose sources are not part of this
repository; they are modelled from the interface the spec gives them, as
marked on each definition.
-/

set_option autoImplicit false

namespace ZmDevice

/-- Message identifiers of the protocol codec: a device record, an OK
status, or an error status. -/
inductive ProtoId where
  | DEVICE
  | OK
  | ERROR
deriving DecidableEq, Repr

/-- Modelled from the spec: a protocol codec message (zm_proto).  A device
record carries a name, a timestamp, a size/magnitude value and an
open-ended annotation block (the `ext` key-value list); OK and ERROR
statuses reuse the same buffer, with `code` and `text` meaningful only for
ERROR. -/
structure ZmProto where
  id : ProtoId
  device : String
  time : Int
  ttl : Int
  code : Nat
  text : String
  ext : List (String × Int)
deriving DecidableEq, Repr

/-- Modelled from the spec: update an annotation key in place (replace the
value if the key exists, append the pair otherwise). -/
def ext_set : List (String × Int) → String → Int → List (String × Int)
  | [], k, v => [(k, v)]
  | e :: rest, k, v => if e.1 = k then (k, v) :: rest else e :: ext_set rest k v

/-- Modelled from the spec: read an annotation key, with a default for a
missing key. -/
def ext_get : List (String × Int) → String → Int → Int
  | [], _, dflt => dflt
  | e :: rest, k, dflt => if e.1 = k then e.2 else ext_get rest k dflt

/-- Modelled from the spec: zm_proto_ext_set_int sets an integer-valued
annotation on a message. -/
def zm_proto_ext_set_int (m : ZmProto) (k : String) (v : Int) : ZmProto :=
  { m with ext := ext_set m.ext k v }

/-- Modelled from the spec: zm_proto_ext_int reads an integer-valued
annotation, returning the default when the key is absent. -/
def zm_proto_ext_int (m : ZmProto) (k : String) (dflt : Int) : Int :=
  ext_get m.ext k dflt

/-- Modelled from the spec: zm_proto_encode_ok re-encodes the message
buffer as an OK status. -/
def zm_proto_encode_ok (m : ZmProto) : ZmProto :=
  { m with id := ProtoId.OK }

/-- Modelled from the spec: zm_proto_encode_error re-encodes the message
buffer as an error status with a numeric code and human-readable text. -/
def zm_proto_encode_error (m : ZmProto) (code : Nat) (text : String) : ZmProto :=
  { m with id := ProtoId.ERROR, code := code, text := text }

/-- Modelled from the spec: the Device Registry (zm_devices), a key-value
store of device records keyed by name, with an optional backing file for
persistence.  Iteration order is the registry-defined record order. -/
structure ZmDevices where
  file : Option String
  recs : List ZmProto
deriving DecidableEq, Repr

/-- Modelled from the spec: upsert into the record list, replacing the
record with the same name if one exists, appending otherwise. -/
def zm_devices_insert_recs (m : ZmProto) : List ZmProto → List ZmProto
  | [] => [m]
  | r :: rest =>
      if r.device = m.device then m :: rest else r :: zm_devices_insert_recs m rest

/-- Modelled from the spec: zm_devices_insert upserts a copy of the record
into the registry (replace if the name exists). -/
def zm_devices_insert (d : ZmDevices) (m : ZmProto) : ZmDevices :=
  { d with recs := zm_devices_insert_recs m d.recs }

/-- Modelled from the spec: remove the record with the given name from the
record list, a no-op when the name is absent. -/
def zm_devices_delete_recs (name : String) : List ZmProto → List ZmProto
  | [] => []
  | r :: rest =>
      if r.device = name then zm_devices_delete_recs name rest
      else r :: zm_devices_delete_recs name rest

/-- Modelled from the spec: zm_devices_delete removes a record by name if
present (no error if absent). -/
def zm_devices_delete (d : ZmDevices) (name : String) : ZmDevices :=
  { d with recs := zm_devices_delete_recs name d.recs }

/-- Modelled from the spec: find the record with the given name. -/
def zm_devices_lookup_recs (name : String) : List ZmProto → Option ZmProto
  | [] => none
  | r :: rest =>
      if r.device = name then some r else zm_devices_lookup_recs name rest

/-- Modelled from the spec: zm_devices_lookup is a read-only lookup by
device name. -/
def zm_devices_lookup (d : ZmDevices) (name : String) : Option ZmProto :=
  zm_devices_lookup_recs name d.recs

/-- Modelled from the spec: zm_devices_size is the number of records. -/
def zm_devices_size (d : ZmDevices) : Nat :=
  d.recs.length

/-- A very small model of the backing store: a map from file path to the
record list last persisted there. -/
abbrev FileSys := List (String × List ZmProto)

/-- Remove a path from the backing store map. -/
def fs_erase : FileSys → String → FileSys
  | [], _ => []
  | e :: rest, p => if e.1 = p then fs_erase rest p else e :: fs_erase rest p

/-- Overwrite the contents stored at a path. -/
def fs_write (fs : FileSys) (p : String) (recs : List ZmProto) : FileSys :=
  (p, recs) :: fs_erase fs p

/-- Read the contents stored at a path (empty when nothing was stored). -/
def fs_read : FileSys → String → List ZmProto
  | [], _ => []
  | e :: rest, p => if e.1 = p then e.2 else fs_read rest p

/-- Modelled from the spec: zm_devices_store persists the registry to its
backing file; a registry with no backing file persists nothing. -/
def zm_devices_store (d : ZmDevices) (fs : FileSys) : FileSys :=
  match d.file with
  | some f => fs_write fs f d.recs
  | none => fs

/-- Modelled from the spec: zm_devices_new builds a registry bound to the
given backing file, loading the records persisted there (empty registry
when no file is given). -/
def zm_devices_new (file : Option String) (fs : FileSys) : ZmDevices :=
  { file := file,
    recs := match file with
            | some f => fs_read fs f
            | none => [] }

/-- Observable actions of the mailbox handler, in program order: a registry
insert or delete mutation, a broadcast publish on the producer topic
(zm_device_publish / zm_proto_send_mlm), or a point-to-point send to a
destination under a reply subject (zm_proto_sendto). -/
inductive Event where
  | insertDevice (m : ZmProto)
  | deleteDevice (name : String)
  | publish (subject : String) (m : ZmProto)
  | sendto (dest : String) (subject : String) (m : ZmProto)
deriving DecidableEq, Repr

/-- The GET-ALL / PUBLISH-ALL emission loop of zm_device_recv_mlm_mailbox:
each record gets annotation `_seq` set to its zero-based position (records
are mutated in place, so the tagged records are also the registry's new
contents). -/
def tagSeqFrom (i : Nat) : List ZmProto → List ZmProto
  | [] => []
  | m :: rest => zm_proto_ext_set_int m "_seq" (Int.ofNat i) :: tagSeqFrom (i + 1) rest

/-- The full GET-ALL / PUBLISH-ALL emission of zm_device_recv_mlm_mailbox:
`_cnt` (the registry size, computed once before the loop) is set on the
first record only - the C code applies zm_proto_ext_set_int to the cursor
returned by zm_devices_first before entering the loop - and then every
record gets its `_seq` tag. -/
def getAllEmit (recs : List ZmProto) : List ZmProto :=
  let cnt : Int := Int.ofNat recs.length
  match recs with
  | [] => []
  | first :: rest => tagSeqFrom 0 (zm_proto_ext_set_int first "_cnt" cnt :: rest)

/-- zm_device_recv_mlm_mailbox: the mailbox protocol handler.  Input is the
registry, the decoded request message (self->msg), the request subject and
the sender (reply address); output is the new registry contents plus the
ordered list of observable actions the handler performs. -/
def zm_device_recv_mlm_mailbox (devices : ZmDevices) (msg0 : ZmProto)
    (subject sender : String) : ZmDevices × List Event :=
  if subject = "INSERT" then
    (zm_devices_insert devices msg0,
     [Event.insertDevice msg0,
      Event.publish subject msg0,
      Event.sendto sender "LOOKUP" (zm_proto_encode_ok msg0)])
  else if subject = "DELETE" then
    (zm_devices_delete devices msg0.device,
     [Event.deleteDevice msg0.device,
      Event.publish subject msg0,
      Event.sendto sender "LOOKUP" (zm_proto_encode_ok msg0)])
  else if subject = "LOOKUP" then
    match zm_devices_lookup devices msg0.device with
    | some reply => (devices, [Event.sendto sender "LOOKUP" reply])
    | none =>
        (devices,
         [Event.sendto sender "LOOKUP"
            (zm_proto_encode_error msg0 404 "Requested device does not exists")])
  else if subject = "GET-ALL" then
    if zm_devices_size devices = 0 then
      (devices,
       [Event.sendto sender "LOOKUP" (zm_proto_encode_error msg0 404 "No devices")])
    else
      let tagged := getAllEmit devices.recs
      ({ devices with recs := tagged },
       tagged.map (fun m => Event.sendto sender subject m))
  else if subject = "PUBLISH-ALL" then
    let tagged := getAllEmit devices.recs
    ({ devices with recs := tagged },
     tagged.map (fun m => Event.publish subject m))
  else
    (devices,
     [Event.sendto sender "LOOKUP" (zm_proto_encode_error msg0 403 "Subject not found")])

/-- The configuration tree, restricted to the paths zm_device.c resolves:
malamute/endpoint, malamute/address, malamute/producer, server/file, and
the malamute/consumer children as (stream, pattern) pairs. -/
structure ZmConfig where
  endpoint : Option String
  address : Option String
  producer : Option String
  file : Option String
  consumers : List (String × String)
deriving DecidableEq, Repr

/-- The actor state of struct _zm_device_t that the claims observe: the
termination flag, the verbosity flag, the owned configuration, whether the
Broker Client Handle currently exists (self->client), whether its channel
is registered in the poll set, and the owned Device Registry. -/
structure DeviceState where
  terminated : Bool
  verbose : Bool
  config : Option ZmConfig
  client : Bool
  pollerHasClient : Bool
  devices : ZmDevices
deriving DecidableEq, Repr

/-- zm_device_cfg_file: resolve server/file from the current config. -/
def zm_device_cfg_file (st : DeviceState) : Option String :=
  match st.config with
  | some cfg => cfg.file
  | none => none

/-- Modelled from the spec: the outcomes the external broker library
reports to the Connection Manager - whether connect, the producer
declaration, and each consumer declaration succeed. -/
structure BrokerEnv where
  connectOk : Bool
  producerOk : Bool
  consumerOk : String → String → Bool

/-- The consumer-declaration loop of zm_device_connect_to_malamute:
declare each configured (stream, pattern) subscription, aborting with -1 on
the first failure. -/
def declareConsumers (broker : BrokerEnv) : List (String × String) → Int
  | [] => 0
  | (stream, pat) :: rest =>
      if broker.consumerOk stream pat then declareConsumers broker rest else -1

/-- zm_device_connect_to_malamute: fails without a configuration, a
malamute/endpoint or a malamute/address; lazily creates the Broker Client
Handle (adding it to the poll set) if it does not exist; then connects,
declares the producer if configured, and declares every consumer. -/
def zm_device_connect_to_malamute (broker : BrokerEnv) (st : DeviceState) :
    Int × DeviceState :=
  match st.config with
  | none => (-1, st)
  | some cfg =>
    match cfg.endpoint, cfg.address with
    | none, _ => (-1, st)
    | some _, none => (-1, st)
    | some _, some _ =>
      let st1 := if st.client then st else { st with client := true, pollerHasClient := true }
      if broker.connectOk then
        match cfg.producer with
        | some _ =>
            if broker.producerOk then (declareConsumers broker cfg.consumers, st1)
            else (-1, st1)
        | none => (declareConsumers broker cfg.consumers, st1)
      else (-1, st1)

/-- zm_device_start: invoke the Connection Manager's connect routine. -/
def zm_device_start (broker : BrokerEnv) (st : DeviceState) : Int × DeviceState :=
  zm_device_connect_to_malamute broker st

/-- zm_device_stop: remove the broker channel from the poll set, destroy
the Broker Client Handle, and persist the Device Registry.  Returns 0.
The poll-set removal and handle destruction are modelled from the spec's
Broker Client Handle interface (teardown of an absent handle is a no-op). -/
def zm_device_stop (st : DeviceState) (fs : FileSys) : Int × DeviceState × FileSys :=
  let st1 := { st with pollerHasClient := false, client := false }
  (0, st1, zm_devices_store st1.devices fs)

/-- zm_device_config: pop the payload string; parse it as a configuration
tree (the czmq zconfig parser is abstracted as the `parse` argument).  On
parse failure, or a missing payload, return -1 with no state change.  On
success replace the configuration; then, if the new configuration has a
server/file, bind the registry to that file if it had none, persist it,
and replace it with a fresh registry loaded from the new file. -/
def zm_device_config (parse : String → Option ZmConfig) (st : DeviceState)
    (fs : FileSys) (payload : Option String) : Int × DeviceState × FileSys :=
  match payload with
  | none => (-1, st, fs)
  | some s =>
    match parse s with
    | none => (-1, st, fs)
    | some cfg =>
      let st1 := { st with config := some cfg }
      match cfg.file with
      | none => (0, st1, fs)
      | some f =>
        let devs := if st1.devices.file = none
                    then { st1.devices with file := some f }
                    else st1.devices
        let fs1 := zm_devices_store devs fs
        (0, { st1 with devices := zm_devices_new (some f) fs1 }, fs1)

/-- Outcome of one control-channel command: either the actor continues with
an updated state, or the handler hits the assert (false) branch and the
process aborts. -/
inductive ApiOutcome where
  | normal (st : DeviceState) (fs : FileSys)
  | fatal
deriving Repr

/-- zm_device_recv_api: dispatch one framed supervisor command.  START,
STOP, VERBOSE, $TERM and CONFIG are handled (statuses of START and CONFIG
are not visible to the supervisor); any other verb reaches
assert (false). -/
def zm_device_recv_api (parse : String → Option ZmConfig) (broker : BrokerEnv)
    (st : DeviceState) (fs : FileSys) (command : String) (rest : List String) :
    ApiOutcome :=
  if command = "START" then
    ApiOutcome.normal (zm_device_start broker st).2 fs
  else if command = "STOP" then
    let r := zm_device_stop st fs
    ApiOutcome.normal r.2.1 r.2.2
  else if command = "VERBOSE" then
    ApiOutcome.normal { st with verbose := true } fs
  else if command = "$TERM" then
    ApiOutcome.normal { st with terminated := true } fs
  else if command = "CONFIG" then
    let r := zm_device_config parse st fs rest.head?
    ApiOutcome.normal r.2.1 r.2.2
  else
    ApiOutcome.fatal

/-- zm_device_new: the freshly created actor state - not terminated, not
verbose, no configuration, a Broker Client Handle already created and
added to the poll set, and an empty registry with no backing file. -/
def zm_device_new : DeviceState :=
  { terminated := false
    verbose := false
    config := none
    client := true
    pollerHasClient := true
    devices := { file := none, recs := [] } }

/-- Sample device record "a" with empty annotations, for concrete runs. -/
def devA : ZmProto :=
  { id := ProtoId.DEVICE, device := "a", time := 1, ttl := 10,
    code := 0, text := "", ext := [] }

/-- Sample device record "b" with empty annotations, for concrete runs. -/
def devB : ZmProto :=
  { id := ProtoId.DEVICE, device := "b", time := 2, ttl := 20,
    code := 0, text := "", ext := [] }

/-- A request message naming device "a" (as a LOOKUP or DELETE body). -/
def reqA : ZmProto :=
  { id := ProtoId.DEVICE, device := "a", time := 0, ttl := 0,
    code := 0, text := "", ext := [] }

/-- A broker environment in which every declaration succeeds. -/
def brokerAllOk : BrokerEnv :=
  { connectOk := true, producerOk := true, consumerOk := fun _ _ => true }

/-- A configuration whose server/file names the same path the sample
registry below is already bound to. -/
def cfgSameFile : ZmConfig :=
  { endpoint := some "inproc://zm-device-test", address := some "it.zmon.device",
    producer := none, file := some "devices.zpl", consumers := [] }

/-- An actor state whose registry is bound to "devices.zpl" and holds one
record. -/
def stWithFile : DeviceState :=
  { terminated := false, verbose := false, config := none, client := true,
    pollerHasClient := true, devices := { file := some "devices.zpl", recs := [devA] } }

/-!  Helper lemmas about the registry and backing-store models. -/

theorem zm_devices_lookup_insert_recs (recs : List ZmProto) (m : ZmProto) :
    zm_devices_lookup_recs m.device (zm_devices_insert_recs m recs) = some m := by
  induction recs with
  | nil => simp [zm_devices_insert_recs, zm_devices_lookup_recs]
  | cons r rest ih =>
      by_cases h : r.device = m.device
      · simp [zm_devices_insert_recs, h, zm_devices_lookup_recs]
      · simp [zm_devices_insert_recs, h, zm_devices_lookup_recs, ih]

theorem zm_devices_lookup_delete_recs (recs : List ZmProto) (n : String) :
    zm_devices_lookup_recs n (zm_devices_delete_recs n recs) = none := by
  induction recs with
  | nil => rfl
  | cons r rest ih =>
      by_cases h : r.device = n
      · simp [zm_devices_delete_recs, h, ih]
      · simp [zm_devices_delete_recs, h, zm_devices_lookup_recs, ih]

theorem recv_mailbox_lookup_found (devices : ZmDevices) (q : ZmProto) (s : String)
    (r : ZmProto) (hl : zm_devices_lookup devices q.device = some r) :
    zm_device_recv_mlm_mailbox devices q "LOOKUP" s =
      (devices, [Event.sendto s "LOOKUP" r]) := by
  simp [zm_device_recv_mlm_mailbox, hl]

theorem recv_mailbox_lookup_notfound (devices : ZmDevices) (q : ZmProto) (s : String)
    (hl : zm_devices_lookup devices q.device = none) :
    zm_device_recv_mlm_mailbox devices q "LOOKUP" s =
      (devices,
       [Event.sendto s "LOOKUP"
          (zm_proto_encode_error q 404 "Requested device does not exists")]) := by
  simp [zm_device_recv_mlm_mailbox, hl]

theorem fs_erase_idem (fs : FileSys) (p : String) :
    fs_erase (fs_erase fs p) p = fs_erase fs p := by
  induction fs with
  | nil => rfl
  | cons e rest ih =>
      by_cases h : e.1 = p
      · simp [fs_erase, h, ih]
      · simp [fs_erase, h, ih]

theorem zm_devices_store_idem (d : ZmDevices) (fs : FileSys) :
    zm_devices_store d (zm_devices_store d fs) = zm_devices_store d fs := by
  cases hf : d.file with
  | none => simp [zm_devices_store, hf]
  | some f => simp [zm_devices_store, hf, fs_write, fs_erase, fs_erase_idem]

/-- Claim C1: for a registry with N >= 1 records, GET-ALL sends exactly N
point-to-point replies whose `_seq` annotations take every value in [0, N)
once, each reply carrying `_cnt` = N.  The code sets `_cnt` only on the
first record before the loop, so on a fresh two-record registry the run
below produces two replies with `_seq` = 0 and 1 but the second reply has
no `_cnt` annotation (the -1 default is returned), contradicting the
in-source header documentation that every emitted message's ext carries
both `_seq` and `_cnt`. -/
theorem getall_cnt_only_on_first_reply :
    ((zm_device_recv_mlm_mailbox { file := none, recs := [devA, devB] }
        reqA "GET-ALL" "writer").2.map
      (fun e =>
        match e with
        | Event.sendto dest subj m =>
            (dest, subj, zm_proto_ext_int m "_seq" (-1), zm_proto_ext_int m "_cnt" (-1))
        | _ => ("", "", -2, -2))) =
      [("writer", "GET-ALL", (0 : Int), (2 : Int)),
       ("writer", "GET-ALL", (1 : Int), (-1 : Int))] := by
  decide

/-- Claim C2 (counterexample): on a one-record registry, the single GET-ALL
reply is sent to the sender under subject "GET-ALL", not "LOOKUP", so the
claim that every point-to-point reply carries reply subject "LOOKUP" fails
on the GET-ALL sequence. -/
theorem getall_reply_subject_not_lookup :
    (zm_device_recv_mlm_mailbox { file := none, recs := [devA] }
        reqA "GET-ALL" "writer").2 =
      [Event.sendto "writer" "GET-ALL"
        (zm_proto_ext_set_int (zm_proto_ext_set_int devA "_cnt" 1) "_seq" 0)] ∧
    "GET-ALL" ≠ "LOOKUP" := by
  decide

/-- Claim C2 (amended): every point-to-point reply of the mailbox handler
is addressed under reply subject "LOOKUP" - for INSERT, DELETE, LOOKUP,
unrecognized subjects and the GET-ALL empty-registry error - except the
messages of a non-empty GET-ALL sequence, which are sent under subject
"GET-ALL" (the originating subject). -/
theorem mailbox_reply_subject (devices : ZmDevices) (msg0 : ZmProto)
    (subject sender dest rsub : String) (m : ZmProto)
    (h : Event.sendto dest rsub m ∈
          (zm_device_recv_mlm_mailbox devices msg0 subject sender).2) :
    rsub = "LOOKUP" ∨ (subject = "GET-ALL" ∧ rsub = "GET-ALL") := by
  unfold zm_device_recv_mlm_mailbox at h
  by_cases h1 : subject = "INSERT"
  · simp [h1] at h
    exact Or.inl h.2.1
  rw [if_neg h1] at h
  by_cases h2 : subject = "DELETE"
  · simp [h2] at h
    exact Or.inl h.2.1
  rw [if_neg h2] at h
  by_cases h3 : subject = "LOOKUP"
  · rw [if_pos h3] at h
    cases hl : zm_devices_lookup devices msg0.device with
    | some reply =>
        rw [hl] at h
        simp at h
        exact Or.inl h.2.1
    | none =>
        rw [hl] at h
        simp at h
        exact Or.inl h.2.1
  rw [if_neg h3] at h
  by_cases h4 : subject = "GET-ALL"
  · rw [if_pos h4] at h
    by_cases hz : zm_devices_size devices = 0
    · rw [if_pos hz] at h
      simp at h
      exact Or.inl h.2.1
    · rw [if_neg hz] at h
      simp only [List.mem_map] at h
      obtain ⟨a, _, heq⟩ := h
      injection heq with e1 e2 e3
      exact Or.inr ⟨h4, e2 ▸ h4⟩
  rw [if_neg h4] at h
  by_cases h5 : subject = "PUBLISH-ALL"
  · rw [if_pos h5] at h
    simp only [List.mem_map] at h
    obtain ⟨a, _, heq⟩ := h
    exact absurd heq (by simp)
  rw [if_neg h5] at h
  simp at h
  exact Or.inl h.2.1

/-- Witness for the amended C2 theorem: the OK acknowledgement of an INSERT
is a point-to-point reply under subject "LOOKUP". -/
theorem mailbox_reply_subject_witness :
    Event.sendto "w" "LOOKUP" (zm_proto_encode_ok reqA) ∈
      (zm_device_recv_mlm_mailbox { file := none, recs := [] } reqA "INSERT" "w").2 ∧
    ("LOOKUP" = "LOOKUP" ∨ ("INSERT" = "GET-ALL" ∧ "LOOKUP" = "GET-ALL")) :=
  ⟨by decide,
   mailbox_reply_subject { file := none, recs := [] } reqA "INSERT" "w" "w" "LOOKUP"
     (zm_proto_encode_ok reqA) (by decide)⟩

/-- Claim C3: PUBLISH-ALL on an empty registry emits zero broadcast
messages and no error reply, leaving the registry untouched, while GET-ALL
on the same empty registry replies with error 404 "No devices". -/
theorem publish_all_empty_registry_silent (msg0 : ZmProto) (sender : String)
    (f : Option String) :
    zm_device_recv_mlm_mailbox { file := f, recs := [] } msg0 "PUBLISH-ALL" sender =
      ({ file := f, recs := [] }, []) ∧
    (zm_device_recv_mlm_mailbox { file := f, recs := [] } msg0 "GET-ALL" sender).2 =
      [Event.sendto sender "LOOKUP" (zm_proto_encode_error msg0 404 "No devices")] :=
  ⟨rfl, rfl⟩

/-- Claim C4: INSERT of a record d (an upsert that replaces any record with
the same name) followed by a LOOKUP naming d yields a reply carrying a
record equal to d, under reply subject "LOOKUP". -/
theorem insert_lookup_roundtrip (devices : ZmDevices) (d q : ZmProto)
    (s1 s2 : String) (hq : q.device = d.device) :
    (zm_device_recv_mlm_mailbox
        (zm_device_recv_mlm_mailbox devices d "INSERT" s1).1
        q "LOOKUP" s2).2 =
      [Event.sendto s2 "LOOKUP" d] := by
  have hins : (zm_device_recv_mlm_mailbox devices d "INSERT" s1).1 =
      zm_devices_insert devices d := rfl
  rw [hins]
  have hl : zm_devices_lookup (zm_devices_insert devices d) q.device = some d := by
    rw [hq]
    exact zm_devices_lookup_insert_recs devices.recs d
  rw [recv_mailbox_lookup_found _ _ _ _ hl]

/-- Witness for C4: inserting device "a" into an empty registry and looking
up "a" returns that record. -/
theorem insert_lookup_roundtrip_witness :
    reqA.device = devA.device ∧
    (zm_device_recv_mlm_mailbox
        (zm_device_recv_mlm_mailbox { file := none, recs := [] } devA "INSERT" "w1").1
        reqA "LOOKUP" "w2").2 = [Event.sendto "w2" "LOOKUP" devA] :=
  ⟨rfl, insert_lookup_roundtrip { file := none, recs := [] } devA reqA "w1" "w2" rfl⟩

/-- Claim C5 (counterexample): after DELETE of "a", the LOOKUP of "a"
replies with error 404 whose text is "Requested device does not exists",
not the claimed "device does not exist". -/
theorem delete_lookup_error_text :
    (zm_device_recv_mlm_mailbox
        (zm_device_recv_mlm_mailbox { file := none, recs := [devA] } reqA "DELETE" "w").1
        reqA "LOOKUP" "w").2 =
      [Event.sendto "w" "LOOKUP"
         (zm_proto_encode_error reqA 404 "Requested device does not exists")] ∧
    (zm_proto_encode_error reqA 404 "Requested device does not exists").text ≠
      "device does not exist" := by
  decide

/-- Claim C5 (amended): DELETE of any name n always succeeds - its trace is
the registry removal, the broadcast publish under subject "DELETE", and an
OK reply under subject "LOOKUP" - and a subsequent LOOKUP of n replies with
error 404 under subject "LOOKUP", with text "Requested device does not
exists", whether or not n was ever present. -/
theorem delete_then_lookup_404 (devices : ZmDevices) (delReq lookReq : ZmProto)
    (s1 s2 : String) (hn : lookReq.device = delReq.device) :
    (zm_device_recv_mlm_mailbox devices delReq "DELETE" s1).2 =
      [Event.deleteDevice delReq.device, Event.publish "DELETE" delReq,
       Event.sendto s1 "LOOKUP" (zm_proto_encode_ok delReq)] ∧
    (zm_device_recv_mlm_mailbox
        (zm_device_recv_mlm_mailbox devices delReq "DELETE" s1).1
        lookReq "LOOKUP" s2).2 =
      [Event.sendto s2 "LOOKUP"
         (zm_proto_encode_error lookReq 404 "Requested device does not exists")] := by
  refine ⟨rfl, ?_⟩
  have hdel : (zm_device_recv_mlm_mailbox devices delReq "DELETE" s1).1 =
      zm_devices_delete devices delReq.device := rfl
  rw [hdel]
  have hl : zm_devices_lookup (zm_devices_delete devices delReq.device)
      lookReq.device = none := by
    rw [hn]
    exact zm_devices_lookup_delete_recs devices.recs delReq.device
  rw [recv_mailbox_lookup_notfound _ _ _ hl]

/-- Witness for the amended C5 theorem: delete "a" from a registry that
never held it, then look "a" up. -/
theorem delete_then_lookup_404_witness :
    reqA.device = reqA.device ∧
    (zm_device_recv_mlm_mailbox { file := none, recs := [] } reqA "DELETE" "w1").2 =
      [Event.deleteDevice reqA.device, Event.publish "DELETE" reqA,
       Event.sendto "w1" "LOOKUP" (zm_proto_encode_ok reqA)] ∧
    (zm_device_recv_mlm_mailbox
        (zm_device_recv_mlm_mailbox { file := none, recs := [] } reqA "DELETE" "w1").1
        reqA "LOOKUP" "w2").2 =
      [Event.sendto "w2" "LOOKUP"
         (zm_proto_encode_error reqA 404 "Requested device does not exists")] :=
  ⟨rfl,
   (delete_then_lookup_404 { file := none, recs := [] } reqA reqA "w1" "w2" rfl).1,
   (delete_then_lookup_404 { file := none, recs := [] } reqA reqA "w1" "w2" rfl).2⟩

/-- Claim C6: for INSERT and DELETE requests the handler's observable
actions are, in order: the registry mutation, then the broadcast publish
under the originating subject ("INSERT" or "DELETE"), then the
point-to-point OK acknowledgement - the acknowledgement is never emitted
before the broadcast. -/
theorem insert_delete_effect_order (devices : ZmDevices) (msg0 : ZmProto)
    (subject sender : String) (h : subject = "INSERT" ∨ subject = "DELETE") :
    (zm_device_recv_mlm_mailbox devices msg0 subject sender).2 =
      [if subject = "INSERT" then Event.insertDevice msg0
       else Event.deleteDevice msg0.device,
       Event.publish subject msg0,
       Event.sendto sender "LOOKUP" (zm_proto_encode_ok msg0)] := by
  rcases h with h | h <;> subst h <;> rfl

/-- Witness for C6: a concrete INSERT produces mutation, publish, then the
OK acknowledgement. -/
theorem insert_delete_effect_order_witness :
    ("INSERT" = "INSERT" ∨ "INSERT" = "DELETE") ∧
    (zm_device_recv_mlm_mailbox { file := none, recs := [] } devA "INSERT" "w").2 =
      [if "INSERT" = "INSERT" then Event.insertDevice devA
       else Event.deleteDevice devA.device,
       Event.publish "INSERT" devA,
       Event.sendto "w" "LOOKUP" (zm_proto_encode_ok devA)] :=
  ⟨Or.inl rfl,
   insert_delete_effect_order { file := none, recs := [] } devA "INSERT" "w" (Or.inl rfl)⟩

/-- Claim C7: zm_device_stop always returns 0, and performing it twice in a
row leaves exactly the state and backing store of a single invocation: the
broker channel stays out of the poll set, the Broker Client Handle stays
destroyed, and the second registry persist rewrites the same contents. -/
theorem stop_idempotent_and_succeeds (st : DeviceState) (fs : FileSys) :
    (zm_device_stop st fs).1 = 0 ∧
    (zm_device_stop (zm_device_stop st fs).2.1 (zm_device_stop st fs).2.2).1 = 0 ∧
    (zm_device_stop (zm_device_stop st fs).2.1 (zm_device_stop st fs).2.2).2 =
      (zm_device_stop st fs).2 := by
  refine ⟨rfl, rfl, ?_⟩
  simp [zm_device_stop, Prod.ext_iff, zm_devices_store_idem]

/-- Claim C8 (counterexample): a successful CONFIG whose server/file equals
the registry's current backing file still persists the registry (the
backing store changes from empty to holding the record list), so
persist-then-replace is not conditional on the path differing. -/
theorem config_unchanged_file_still_persists :
    cfgSameFile.file = stWithFile.devices.file ∧
    (zm_device_config (fun _ => some cfgSameFile) stWithFile [] (some "cfg")).1 = 0 ∧
    (zm_device_config (fun _ => some cfgSameFile) stWithFile [] (some "cfg")).2.2 ≠
      ([] : FileSys) := by
  decide

/-- Claim C8 (amended): on a successful CONFIG the registry is persisted
and then replaced with one bound to the new server/file whenever that path
is present in the new configuration - even when it equals the current
backing file (a registry with no backing file is first bound to the new
path, so the persist writes there); the registry and backing store are left
unchanged only when server/file is absent. -/
theorem config_persist_replace_iff_file_present (parse : String → Option ZmConfig)
    (st : DeviceState) (fs : FileSys) (s : String) (cfg : ZmConfig) (f : String)
    (hp : parse s = some cfg) :
    (cfg.file = none →
       zm_device_config parse st fs (some s) = (0, { st with config := some cfg }, fs)) ∧
    (cfg.file = some f →
       zm_device_config parse st fs (some s) =
         (0,
          { st with
            config := some cfg
            devices := zm_devices_new (some f)
              (zm_devices_store
                (if st.devices.file = none then { st.devices with file := some f }
                 else st.devices) fs) },
          zm_devices_store
            (if st.devices.file = none then { st.devices with file := some f }
             else st.devices) fs)) := by
  constructor
  · intro h0
    simp [zm_device_config, hp, h0]
  · intro hf
    simp [zm_device_config, hp, hf]

/-- Witness for the amended C8 theorem: a CONFIG naming the registry's
current backing file persists the one record and replaces the registry. -/
theorem config_persist_replace_witness :
    (fun _ : String => some cfgSameFile) "cfg" = some cfgSameFile ∧
    cfgSameFile.file = some "devices.zpl" ∧
    zm_device_config (fun _ => some cfgSameFile) stWithFile [] (some "cfg") =
      (0,
       { stWithFile with
         config := some cfgSameFile
         devices := zm_devices_new (some "devices.zpl")
           (zm_devices_store
             (if stWithFile.devices.file = none
              then { stWithFile.devices with file := some "devices.zpl" }
              else stWithFile.devices) []) },
       zm_devices_store
         (if stWithFile.devices.file = none
          then { stWithFile.devices with file := some "devices.zpl" }
          else stWithFile.devices) []) :=
  ⟨rfl, rfl,
   (config_persist_replace_iff_file_present (fun _ => some cfgSameFile) stWithFile []
      "cfg" cfgSameFile "devices.zpl" rfl).2 rfl⟩

/-- Claim C9: a CONFIG command whose payload does not parse as a
configuration tree returns -1 and leaves the configuration, the registry,
the backing store and the whole actor state untouched. -/
theorem config_malformed_no_state_change (parse : String → Option ZmConfig)
    (st : DeviceState) (fs : FileSys) (s : String) (hp : parse s = none) :
    zm_device_config parse st fs (some s) = (-1, st, fs) := by
  simp [zm_device_config, hp]

/-- Witness for C9: an unparsable payload leaves a fresh actor state
unchanged and returns -1. -/
theorem config_malformed_no_state_change_witness :
    (fun _ : String => (none : Option ZmConfig)) "garbage" = none ∧
    zm_device_config (fun _ => none) zm_device_new [] (some "garbage") =
      (-1, zm_device_new, []) :=
  ⟨rfl, config_malformed_no_state_change (fun _ => none) zm_device_new [] "garbage" rfl⟩

/-- Claim C10: a control-channel command whose verb is none of START, STOP,
VERBOSE, CONFIG, $TERM falls through every recognized branch of
zm_device_recv_api into the assert (false) branch, so the handler is fatal
there; the witness shows the branch is reachable (for example by verb
"FOO"). -/
theorem recv_api_unknown_verb_fatal (parse : String → Option ZmConfig)
    (broker : BrokerEnv) (st : DeviceState) (fs : FileSys) (command : String)
    (rest : List String)
    (h : command ∉ ["START", "STOP", "VERBOSE", "CONFIG", "$TERM"]) :
    zm_device_recv_api parse broker st fs command rest = ApiOutcome.fatal := by
  simp only [List.mem_cons, List.not_mem_nil, or_false, not_or] at h
  obtain ⟨h1, h2, h3, h4, h5⟩ := h
  simp [zm_device_recv_api, h1, h2, h3, h4, h5]

/-- Witness for C10: the verb "FOO" is unrecognized and reaches the fatal
branch. -/
theorem recv_api_unknown_verb_fatal_witness :
    "FOO" ∉ ["START", "STOP", "VERBOSE", "CONFIG", "$TERM"] ∧
    zm_device_recv_api (fun _ => none) brokerAllOk zm_device_new [] "FOO" [] =
      ApiOutcome.fatal :=
  ⟨by decide,
   recv_api_unknown_verb_fatal (fun _ => none) brokerAllOk zm_device_new [] "FOO" []
     (by decide)⟩

end ZmDevice
